import Mathlib

/-!
Shallow embedding of the alarm-analysis sample (`src/check_logic/app.py` and
the merge statements of its main block).  Modelling conventions: a dictionary
key read with `.get` becomes an `Option` field; a raised exception (KeyError,
ValueError, UnboundLocalError, strptime/json failure) makes the embedded
function return `Option.none`; timestamps are integers counting microseconds
(the source parses dates with microsecond precision); floats are rationals.
-/

/-- A CloudWatch alarm dictionary as the checker reads it.  Fields the source
reads with `.get` are `Option`; `alarmActions` is also `Option` because the
source indexes `alarm["AlarmActions"]` directly, so a missing key raises. -/
structure Alarm where
  alarmArn : String
  alarmName : Option String
  alarmDescription : Option String
  actionsEnabled : Option Bool
  okActions : Option (List String)
  alarmActions : Option (List String)
  insufficientDataActions : Option (List String)
  threshold : Option ℚ
  datapointsToAlarm : Option Int
deriving DecidableEq

/-- `alarm_has_description`: false when the description is absent or is empty
after stripping whitespace, true otherwise. -/
def alarm_has_description (alarm : Alarm) : Bool :=
  match alarm.alarmDescription with
  | none => false
  | some d => if d.trim = "" then false else true

/-- `alarm_has_actions`: the source evaluates `len(alarm["AlarmActions"]) > 0`;
a missing key raises KeyError, modelled as `none`. -/
def alarm_has_actions (alarm : Alarm) : Option Bool :=
  match alarm.alarmActions with
  | none => none
  | some acts => some (decide (acts.length > 0))

/-- `alarm_theshold_too_high` (name kept from the source): the source tests
`if not alarm_threshold or alarm_threshold > 30.0`; Python truthiness makes
`not x` true both for `None` and for `0.0`. -/
def alarm_theshold_too_high (alarm : Alarm) : Bool :=
  match alarm.threshold with
  | none => true
  | some v => if v = 0 then true else decide (v > 30)

/-- `alarm_data_points_too_high`: the source tests
`if not alarm_data_points or alarm_data_points > 15`, with the same
truthiness behaviour at `0`. -/
def alarm_data_points_too_high (alarm : Alarm) : Bool :=
  match alarm.datapointsToAlarm with
  | none => true
  | some n => if n = 0 then true else decide (n > 15)

/-- The four bucket lists returned by `basic_alarm_checks`. -/
structure Buckets where
  no_description : List Alarm
  high_threshold : List Alarm
  high_data_points : List Alarm
  no_actions : List Alarm
deriving DecidableEq

/-- Loop body of `basic_alarm_checks`: the four checks run in source order for
each alarm; `alarm_has_actions` can raise, which aborts the whole call. -/
def basic_alarm_checks_go : List Alarm → Buckets → Option Buckets
  | [], acc => some acc
  | alarm :: rest, acc =>
    let acc1 := if alarm_has_description alarm then acc
      else { acc with no_description := acc.no_description ++ [alarm] }
    let acc2 := if alarm_theshold_too_high alarm then
      { acc1 with high_threshold := acc1.high_threshold ++ [alarm] } else acc1
    let acc3 := if alarm_data_points_too_high alarm then
      { acc2 with high_data_points := acc2.high_data_points ++ [alarm] } else acc2
    match alarm_has_actions alarm with
    | none => none
    | some has =>
      let acc4 := if has then acc3
        else { acc3 with no_actions := acc3.no_actions ++ [alarm] }
      basic_alarm_checks_go rest acc4

/-- `basic_alarm_checks`: folds the four static checks over the alarm list. -/
def basic_alarm_checks (alarm_list : List Alarm) : Option Buckets :=
  basic_alarm_checks_go alarm_list ⟨[], [], [], []⟩

/-- Microseconds in `timedelta(hours = n)`. -/
def td_hours (n : Int) : Int := n * 3600000000

/-- Microseconds in `timedelta(minutes = n)`. -/
def td_minutes (n : Int) : Int := n * 60000000

/-- One alarm-history item as `check_alarm_history` reads it.
`newStateStart` / `oldStateStart` are the parsed `startDate` values of the
embedded `newState` / `oldState` payloads of `HistoryData`; `none` models a
malformed payload or a missing start-date (where the source would raise). -/
structure HistoryItem where
  historyItemType : String
  historySummary : String
  newStateStart : Option Int
  oldStateStart : Option Int
deriving DecidableEq

/-- `get_alarm_start_time`: returns the start time for the requested state
payload; an unsupported selector raises ValueError and a malformed payload
raises during lookup or parsing, both modelled as `none`. -/
def get_alarm_start_time (alarm : HistoryItem) (state_type : String) : Option Int :=
  if state_type = "newState" then alarm.newStateStart
  else if state_type = "oldState" then alarm.oldStateStart
  else none

/-- The four counters returned by `check_alarm_history`. -/
structure Counters where
  long_lived_alarm_count : Nat
  long_term_issue_count : Nat
  recurring_in_12_hours_count : Nat
  short_alarm_count : Nat
deriving DecidableEq

/-- One iteration of the `check_alarm_history` loop.  The state carries the
counters and the current binding of the local `time_between_close_and_trigger`
(`none` while it is still unassigned).  In the ALARM-to-OK branch the two
logging calls interpolate `time_between_close_and_trigger`, which is assigned
only in the OK-to-ALARM branch, so reaching either logging call while it is
unassigned raises UnboundLocalError and aborts the whole call (`none`). -/
def stepEvent (st : Counters × Option Int) (alarm : HistoryItem) :
    Option (Counters × Option Int) :=
  if alarm.historyItemType ≠ "StateUpdate" then some st
  else if alarm.historySummary = "Alarm updated from OK to ALARM" then
    match get_alarm_start_time alarm "newState" with
    | none => none
    | some alarm_start_time =>
      match get_alarm_start_time alarm "oldState" with
      | none => none
      | some prev_alarm_close_time =>
        let tbct := alarm_start_time - prev_alarm_close_time
        let c1 := if tbct ≤ td_hours 24 then
          { st.1 with long_term_issue_count := st.1.long_term_issue_count + 1 }
          else st.1
        let c2 := if tbct ≤ td_hours 12 then
          { c1 with recurring_in_12_hours_count := c1.recurring_in_12_hours_count + 1 }
          else c1
        some (c2, some tbct)
  else if alarm.historySummary = "Alarm updated from ALARM to OK" then
    match get_alarm_start_time alarm "newState" with
    | none => none
    | some alarm_close_time =>
      match get_alarm_start_time alarm "oldState" with
      | none => none
      | some alarm_start_time =>
        let time_to_solve := alarm_close_time - alarm_start_time
        if time_to_solve ≥ td_hours 48 then
          match st.2 with
          | none => none
          | some _ =>
            some ({ st.1 with
              long_lived_alarm_count := st.1.long_lived_alarm_count + 1 }, st.2)
        else if time_to_solve ≤ td_minutes 2 then
          match st.2 with
          | none => none
          | some _ =>
            some ({ st.1 with
              short_alarm_count := st.1.short_alarm_count + 1 }, st.2)
        else some st
  else some st

/-- Tail of the `check_alarm_history` loop from a given state. -/
def check_alarm_history_go : List HistoryItem → Counters × Option Int → Option Counters
  | [], st => some st.1
  | alarm :: rest, st =>
    match stepEvent st alarm with
    | none => none
    | some st' => check_alarm_history_go rest st'

/-- `check_alarm_history`: iterates over `reversed(alarm_history)` with all
counters at zero and `time_between_close_and_trigger` unassigned. -/
def check_alarm_history (alarm_history : List HistoryItem) : Option Counters :=
  check_alarm_history_go alarm_history.reverse (⟨0, 0, 0, 0⟩, none)

/-- One value of the per-ARN alarm map: the six attributes seeded by
`create_alarm_map`, the four bucket flags added by `create_alarm_with_flags`
(`none` when the key was never written), and the two advisory keys set in the
main block. -/
structure AlarmDetail where
  alarmName : Option String
  alarmDescription : Option String
  actionsEnabled : Option Bool
  okActions : Option (List String)
  alarmActions : Option (List String)
  insufficientDataActions : Option (List String)
  no_description : Option Bool
  high_threshold : Option Bool
  high_data_points : Option Bool
  no_actions : Option Bool
  descriptionAssessment : Option String
  suggestedDescription : Option String
deriving DecidableEq

/-- A Python dict keyed by ARN, as an insertion-ordered association list. -/
abbrev AlarmMap := List (String × AlarmDetail)

/-- Dict lookup: `m[arn]` is `none` exactly when the key is missing. -/
def mapGet : AlarmMap → String → Option AlarmDetail
  | [], _ => none
  | (k, v) :: rest, arn => if k = arn then some v else mapGet rest arn

/-- Dict assignment `m[arn] = v`: replace in place or append a new key. -/
def mapSet : AlarmMap → String → AlarmDetail → AlarmMap
  | [], arn, v => [(arn, v)]
  | (k, v') :: rest, arn, v =>
    if k = arn then (k, v) :: rest else (k, v') :: mapSet rest arn v

/-- The record `create_alarm_map` builds for one alarm: six `.get` attributes
and no flag or advisory keys yet. -/
def seed_alarm (alarm : Alarm) : AlarmDetail :=
  { alarmName := alarm.alarmName,
    alarmDescription := alarm.alarmDescription,
    actionsEnabled := alarm.actionsEnabled,
    okActions := alarm.okActions,
    alarmActions := alarm.alarmActions,
    insufficientDataActions := alarm.insufficientDataActions,
    no_description := none,
    high_threshold := none,
    high_data_points := none,
    no_actions := none,
    descriptionAssessment := none,
    suggestedDescription := none }

/-- `create_alarm_map`: one seeded record per alarm, keyed by ARN (a later
duplicate ARN overwrites the earlier record, as for a Python dict). -/
def create_alarm_map (alarms_list : List Alarm) : AlarmMap :=
  alarms_list.foldl (fun m alarm => mapSet m alarm.alarmArn (seed_alarm alarm)) []

/-- `alarm_detail[check_type] = True` for the four bucket names produced by
`basic_alarm_checks`; other keys cannot occur there. -/
def set_flag_field (check_type : String) (r : AlarmDetail) : AlarmDetail :=
  if check_type = "no_description" then { r with no_description := some true }
  else if check_type = "high_threshold" then { r with high_threshold := some true }
  else if check_type = "high_data_points" then { r with high_data_points := some true }
  else if check_type = "no_actions" then { r with no_actions := some true }
  else r

/-- Inner loop of `create_alarm_with_flags` for one bucket: look each alarm up
by ARN (KeyError when absent, modelled as `none`) and set the bucket's flag. -/
def apply_flag_bucket (check_type : String) : List Alarm → AlarmMap → Option AlarmMap
  | [], m => some m
  | alarm :: rest, m =>
    match mapGet m alarm.alarmArn with
    | none => none
    | some r =>
      apply_flag_bucket check_type rest
        (mapSet m alarm.alarmArn (set_flag_field check_type r))

/-- `create_alarm_with_flags`: walks the four buckets in dict insertion order
(the `len == 0` guard in the source only skips an empty loop). -/
def create_alarm_with_flags (basic_alarm_checks_dict : Buckets)
    (alarm_map : AlarmMap) : Option AlarmMap :=
  match apply_flag_bucket "no_description"
      basic_alarm_checks_dict.no_description alarm_map with
  | none => none
  | some m1 =>
    match apply_flag_bucket "high_threshold"
        basic_alarm_checks_dict.high_threshold m1 with
    | none => none
    | some m2 =>
      match apply_flag_bucket "high_data_points"
          basic_alarm_checks_dict.high_data_points m2 with
      | none => none
      | some m3 =>
        apply_flag_bucket "no_actions" basic_alarm_checks_dict.no_actions m3

/-- The advisory merge from the main block: sets the two advisory keys of the
record at `arn` to the values `.get` returned from the LLM output (possibly
`None`), leaving every other key and record alone; a missing ARN raises. -/
def set_description_advisory (alarm_map : AlarmMap) (arn : String)
    (assessment suggested_description : Option String) : Option AlarmMap :=
  match mapGet alarm_map arn with
  | none => none
  | some r =>
    some (mapSet alarm_map arn
      { r with descriptionAssessment := assessment,
               suggestedDescription := suggested_description })

/-! Concrete inputs used by the theorems below. -/

/-- A Trigger event with a 1000-second gap between its two start-dates. -/
def evT : HistoryItem :=
  ⟨"StateUpdate", "Alarm updated from OK to ALARM", some 1000000000, some 0⟩

/-- A Resolve event lasting 90 seconds. -/
def evR : HistoryItem :=
  ⟨"StateUpdate", "Alarm updated from ALARM to OK", some 2090000000, some 2000000000⟩

/-- A Resolve event lasting 49 hours. -/
def evR49 : HistoryItem :=
  ⟨"StateUpdate", "Alarm updated from ALARM to OK", some 176400000000, some 0⟩

/-- Nine well-formed history events, written here in the order the loop
processes them (oldest first): a 1-hour-gap Trigger, a 60-second Resolve, a
13-hour-gap Trigger, a 49-hour Resolve, a configuration update, a state
update with a non-actionable summary, a 25-hour-gap Trigger, a 10-hour
Resolve, and a 90-second Resolve. -/
def e1 : HistoryItem := ⟨"StateUpdate", "Alarm updated from OK to ALARM", some 3600000000, some 0⟩

def e2 : HistoryItem := ⟨"StateUpdate", "Alarm updated from ALARM to OK", some 60000000, some 0⟩

def e3 : HistoryItem := ⟨"StateUpdate", "Alarm updated from OK to ALARM", some 46800000000, some 0⟩

def e4 : HistoryItem := ⟨"StateUpdate", "Alarm updated from ALARM to OK", some 176400000000, some 0⟩

def e5 : HistoryItem := ⟨"ConfigurationUpdate", "Alarm threshold updated", some 0, some 0⟩

def e6 : HistoryItem := ⟨"StateUpdate", "Alarm updated from INSUFFICIENT_DATA to OK", some 0, some 0⟩

def e7 : HistoryItem := ⟨"StateUpdate", "Alarm updated from OK to ALARM", some 90000000000, some 0⟩

def e8 : HistoryItem := ⟨"StateUpdate", "Alarm updated from ALARM to OK", some 36000000000, some 0⟩

def e9 : HistoryItem := ⟨"StateUpdate", "Alarm updated from ALARM to OK", some 90000000, some 0⟩

/-- A Trigger event whose old-state payload has no start-date. -/
def eBad : HistoryItem := ⟨"StateUpdate", "Alarm updated from OK to ALARM", some 5000000, none⟩

/-- The nine good events as a newest-first feed, the order the reference
history source delivers. -/
def goodNineLog : List HistoryItem := [e9, e8, e7, e6, e5, e4, e3, e2, e1]

/-- The same feed with the malformed Trigger inserted mid-log. -/
def badTenLog : List HistoryItem := [e9, e8, e7, e6, e5, eBad, e4, e3, e2, e1]

/-- An alarm that fails all four static checks: no description, threshold 31,
datapoints 16, and an empty (but present) action list. -/
def exAlarm : Alarm :=
  { alarmArn := "arn:a", alarmName := none, alarmDescription := none,
    actionsEnabled := none, okActions := none, alarmActions := some [],
    insufficientDataActions := none, threshold := some 31,
    datapointsToAlarm := some 16 }

/-- The buckets `basic_alarm_checks` produces for `[exAlarm]`. -/
def exB : Buckets := ⟨[exAlarm], [exAlarm], [exAlarm], [exAlarm]⟩

/-- The record `create_alarm_with_flags` leaves for `exAlarm`. -/
def exR : AlarmDetail :=
  { alarmName := none, alarmDescription := none, actionsEnabled := none,
    okActions := none, alarmActions := some [], insufficientDataActions := none,
    no_description := some true, high_threshold := some true,
    high_data_points := some true, no_actions := some true,
    descriptionAssessment := none, suggestedDescription := none }

/-- A record with some flags already set, used to exercise the merges. -/
def exDetailA : AlarmDetail :=
  { alarmName := some "n", alarmDescription := some "d",
    actionsEnabled := some true, okActions := some [],
    alarmActions := some ["act"], insufficientDataActions := some [],
    no_description := some true, high_threshold := some true,
    high_data_points := none, no_actions := none,
    descriptionAssessment := none, suggestedDescription := none }

/-- A second record under a different ARN. -/
def exDetailB : AlarmDetail :=
  { alarmName := some "m", alarmDescription := none,
    actionsEnabled := some false, okActions := some [],
    alarmActions := some [], insufficientDataActions := some [],
    no_description := none, high_threshold := none,
    high_data_points := none, no_actions := none,
    descriptionAssessment := none, suggestedDescription := none }

/-- A two-record alarm map. -/
def exM : AlarmMap := [("a", exDetailA), ("b", exDetailB)]

/-- Record `a` annotated by the advisory merge. -/
def exDetailA' : AlarmDetail :=
  { exDetailA with
    descriptionAssessment := some "assess"
    suggestedDescription := some "sugg" }

/-- `exM` after the advisory merge on record `a`. -/
def exMa : AlarmMap := [("a", exDetailA'), ("b", exDetailB)]

/-- An alarm with ARN `b`, and buckets putting only it in `high_threshold`. -/
def exAlarmB : Alarm :=
  { alarmArn := "b", alarmName := some "m", alarmDescription := none,
    actionsEnabled := some false, okActions := some [], alarmActions := some [],
    insufficientDataActions := some [], threshold := some 31,
    datapointsToAlarm := some 1 }

/-- A bucket set containing only `exAlarmB` under `high_threshold`. -/
def exB8 : Buckets := ⟨[], [exAlarmB], [], []⟩

/-- Record `b` after its `high_threshold` flag is set. -/
def exDetailB' : AlarmDetail := { exDetailB with high_threshold := some true }

/-- `exM` after the flag merge for `exB8`. -/
def exMf : AlarmMap := [("a", exDetailA), ("b", exDetailB')]

/-- An alarm with every optional field missing except an empty action list. -/
def bareAlarm : Alarm :=
  { alarmArn := "arn:bare", alarmName := none, alarmDescription := none,
    actionsEnabled := none, okActions := none, alarmActions := some [],
    insufficientDataActions := none, threshold := none,
    datapointsToAlarm := none }

/-! Theorems. -/

/-- Claim C3: the claim says every present threshold at most 30.0, including
0.0, yields false.  It fails at 0.0: the source guards with Python truthiness
(`not alarm_threshold`), which is true for a zero threshold, so the checker
returns true there although 0 is not greater than 30 — against its own
docstring, which promises true only above 30.0. -/
theorem threshold_zero_flagged_too_high :
    alarm_theshold_too_high
      { alarmArn := "arn:zero-threshold", alarmName := none,
        alarmDescription := some "d", actionsEnabled := none, okActions := none,
        alarmActions := some ["act"], insufficientDataActions := none,
        threshold := some 0, datapointsToAlarm := some 1 } = true ∧
    ¬ ((0 : ℚ) > 30) := by
  exact ⟨rfl, by norm_num⟩

/-- Claim C4: the claim says every present datapoints-to-alarm value at most
15, including 0, yields false.  It fails at 0 for the same truthiness reason:
the checker returns true there although 0 is not greater than 15, against its
own docstring. -/
theorem data_points_zero_flagged_too_high :
    alarm_data_points_too_high
      { alarmArn := "arn:zero-datapoints", alarmName := none,
        alarmDescription := some "d", actionsEnabled := none, okActions := none,
        alarmActions := some ["act"], insufficientDataActions := none,
        threshold := some 1, datapointsToAlarm := some 0 } = true ∧
    ¬ ((0 : Int) > 15) := by
  exact ⟨rfl, by norm_num⟩

/-- Claim C7 counterexample: a record whose action-list key is missing makes
`basic_alarm_checks` raise a KeyError (modelled `none`) instead of returning
its four buckets, although its description, threshold and datapoints checks
all run fine on missing fields. -/
theorem basic_checks_fail_on_missing_action_list :
    basic_alarm_checks
      [{ alarmArn := "arn:no-action-key", alarmName := none,
         alarmDescription := some "described", actionsEnabled := none,
         okActions := none, alarmActions := none,
         insufficientDataActions := none, threshold := some 5,
         datapointsToAlarm := some 5 }] = none := by
  rfl

/-- Claim C7 amended: the static checker never fails on alarms whose
action-list key is present; the other optional fields (description,
threshold, datapoints-to-alarm) may all be absent. -/
theorem basic_checks_total_when_actions_present (l : List Alarm)
    (h : ∀ a ∈ l, a.alarmActions ≠ none) :
    ∃ b, basic_alarm_checks l = some b := by
  suffices hgo : ∀ (xs : List Alarm), (∀ a ∈ xs, a.alarmActions ≠ none) →
      ∀ acc : Buckets, ∃ b, basic_alarm_checks_go xs acc = some b by
    exact hgo l h ⟨[], [], [], []⟩
  intro xs
  induction xs with
  | nil => exact fun _ acc => ⟨acc, rfl⟩
  | cons a rest ih =>
    intro hall acc
    obtain ⟨acts, hacts⟩ :=
      Option.ne_none_iff_exists'.mp (hall a (List.mem_cons_self a rest))
    have hact : alarm_has_actions a = some (decide (acts.length > 0)) := by
      simp [alarm_has_actions, hacts]
    simp only [basic_alarm_checks_go, hact]
    exact ih (fun x hx => hall x (List.mem_cons_of_mem a hx)) _

/-- Witness for the amended C7 theorem: an alarm with every optional field
missing but an (empty) action list present goes through all four checks. -/
theorem basic_checks_total_when_actions_present_witness :
    (∀ a ∈ [bareAlarm], a.alarmActions ≠ none) ∧
    ∃ b, basic_alarm_checks [bareAlarm] = some b :=
  ⟨by decide, basic_checks_total_when_actions_present _ (by decide)⟩

/-- Claim C5: a well-formed Trigger event (summary OK to ALARM, both embedded
start-dates present) increments `long_term_issue_count` when the gap between
its new-state and old-state start-dates is at most 24 hours and, independently
and non-exclusively, `recurring_in_12_hours_count` when the gap is at most 12
hours; the two resolve counters are untouched and the gap is bound into the
loop state. -/
theorem trigger_event_increments (c : Counters) (tb : Option Int)
    (e : HistoryItem) (t0 t1 : Int)
    (hty : e.historyItemType = "StateUpdate")
    (hsum : e.historySummary = "Alarm updated from OK to ALARM")
    (hnew : e.newStateStart = some t1)
    (hold : e.oldStateStart = some t0) :
    stepEvent (c, tb) e = some
      ({ c with
          long_term_issue_count :=
            c.long_term_issue_count +
              (if t1 - t0 ≤ td_hours 24 then 1 else 0),
          recurring_in_12_hours_count :=
            c.recurring_in_12_hours_count +
              (if t1 - t0 ≤ td_hours 12 then 1 else 0) },
        some (t1 - t0)) := by
  obtain ⟨k1, k2, k3, k4⟩ := c
  by_cases h24 : t1 - t0 ≤ td_hours 24 <;>
    by_cases h12 : t1 - t0 ≤ td_hours 12 <;>
      simp [stepEvent, get_alarm_start_time, hty, hsum, hnew, hold, h24, h12]

/-- Witness for C5 at a 10-hour gap: both counters increment by one. -/
theorem trigger_event_increments_witness :
    stepEvent (⟨0, 0, 0, 0⟩, none)
      ⟨"StateUpdate", "Alarm updated from OK to ALARM",
        some 36000000000, some 0⟩ =
      some (⟨0, 1, 1, 0⟩, some 36000000000) := by
  have h := trigger_event_increments ⟨0, 0, 0, 0⟩ none
    ⟨"StateUpdate", "Alarm updated from OK to ALARM",
      some 36000000000, some 0⟩ 0 36000000000 rfl rfl rfl rfl
  simpa [td_hours] using h

/-- Claim C6: a well-formed Resolve event (summary ALARM to OK, both embedded
start-dates present) that the loop processes without raising applies ordered,
mutually exclusive duration tests: a duration of at least 48 hours increments
`long_lived_alarm_count`, otherwise a duration of at most 2 minutes increments
`short_alarm_count`; never both, and the two trigger counters are untouched. -/
theorem resolve_event_increments (c c' : Counters) (tb tb' : Option Int)
    (e : HistoryItem) (t0 t1 : Int)
    (hty : e.historyItemType = "StateUpdate")
    (hsum : e.historySummary = "Alarm updated from ALARM to OK")
    (hnew : e.newStateStart = some t1)
    (hold : e.oldStateStart = some t0)
    (hstep : stepEvent (c, tb) e = some (c', tb')) :
    c'.long_lived_alarm_count =
      c.long_lived_alarm_count + (if t1 - t0 ≥ td_hours 48 then 1 else 0) ∧
    c'.short_alarm_count =
      c.short_alarm_count +
        (if t1 - t0 ≥ td_hours 48 then 0
         else if t1 - t0 ≤ td_minutes 2 then 1 else 0) ∧
    ¬(c'.long_lived_alarm_count ≠ c.long_lived_alarm_count ∧
      c'.short_alarm_count ≠ c.short_alarm_count) ∧
    c'.long_term_issue_count = c.long_term_issue_count ∧
    c'.recurring_in_12_hours_count = c.recurring_in_12_hours_count := by
  cases tb with
  | none =>
    by_cases h48 : t1 - t0 ≥ td_hours 48
    · simp [stepEvent, get_alarm_start_time, hty, hsum, hnew, hold, h48] at hstep
    · by_cases h2m : t1 - t0 ≤ td_minutes 2
      · simp [stepEvent, get_alarm_start_time, hty, hsum, hnew, hold, h48, h2m] at hstep
      · simp [stepEvent, get_alarm_start_time, hty, hsum, hnew, hold, h48, h2m] at hstep
        obtain ⟨rfl, rfl⟩ := hstep
        simp [h48, h2m]
  | some g =>
    by_cases h48 : t1 - t0 ≥ td_hours 48
    · simp [stepEvent, get_alarm_start_time, hty, hsum, hnew, hold, h48] at hstep
      obtain ⟨rfl, rfl⟩ := hstep
      simp [h48]
    · by_cases h2m : t1 - t0 ≤ td_minutes 2
      · simp [stepEvent, get_alarm_start_time, hty, hsum, hnew, hold, h48, h2m] at hstep
        obtain ⟨rfl, rfl⟩ := hstep
        simp [h48, h2m]
      · simp [stepEvent, get_alarm_start_time, hty, hsum, hnew, hold, h48, h2m] at hstep
        obtain ⟨rfl, rfl⟩ := hstep
        simp [h48, h2m]

/-- Witness for C6: at a 49-hour duration only `long_lived_alarm_count`
increments, and at a 90-second duration only `short_alarm_count` does. -/
theorem resolve_event_increments_witness :
    ((1 : Nat) = 0 + (if (176400000000 : Int) - 0 ≥ td_hours 48 then 1 else 0)) ∧
    ((1 : Nat) = 0 +
      (if (2090000000 : Int) - 2000000000 ≥ td_hours 48 then 0
       else if (2090000000 : Int) - 2000000000 ≤ td_minutes 2 then 1 else 0)) :=
  ⟨(resolve_event_increments ⟨0, 0, 0, 0⟩ ⟨1, 0, 0, 0⟩ (some 7) (some 7) evR49 0
      176400000000 rfl rfl rfl rfl (by decide)).1,
   (resolve_event_increments ⟨0, 0, 0, 0⟩ ⟨0, 0, 0, 1⟩ (some 7) (some 7) evR
      2000000000 2090000000 rfl rfl rfl rfl (by decide)).2.1⟩

/-- An event with a Trigger or Resolve summary and a missing embedded
start-date makes the loop body raise, whatever state the loop is in. -/
theorem stepEvent_malformed (e : HistoryItem)
    (hty : e.historyItemType = "StateUpdate")
    (hsum : e.historySummary = "Alarm updated from OK to ALARM" ∨
      e.historySummary = "Alarm updated from ALARM to OK")
    (hbad : e.newStateStart = none ∨ e.oldStateStart = none) :
    ∀ st, stepEvent st e = none := by
  intro st
  rcases hsum with hsum | hsum <;> rcases hbad with hbad | hbad
  · simp [stepEvent, get_alarm_start_time, hty, hsum, hbad]
  · cases hn : e.newStateStart <;>
      simp [stepEvent, get_alarm_start_time, hty, hsum, hbad, hn]
  · simp [stepEvent, get_alarm_start_time, hty, hsum, hbad]
  · cases hn : e.newStateStart <;>
      simp [stepEvent, get_alarm_start_time, hty, hsum, hbad, hn]

/-- If any event of the remaining log makes the loop body raise for every
state, the loop yields no counters. -/
theorem check_go_none_of_mem (e : HistoryItem)
    (hnone : ∀ st, stepEvent st e = none) :
    ∀ (l : List HistoryItem) (st : Counters × Option Int),
      e ∈ l → check_alarm_history_go l st = none := by
  intro l
  induction l with
  | nil => intro st h; cases h
  | cons a rest ih =>
    intro st h
    rcases List.mem_cons.mp h with h | h
    · subst h
      simp [check_alarm_history_go, hnone st]
    · cases hs : stepEvent st a with
      | none => simp [check_alarm_history_go, hs]
      | some st' =>
        simp only [check_alarm_history_go, hs]
        exact ih st' h

/-- Claim C1 amended: a Trigger or Resolve event whose embedded payload is
missing a start-date is not skipped; the raised error aborts the whole
alarm's classification, which returns no counters at all.  (Only events that
are not state updates, or whose summary matches neither transition, are
skipped.) -/
theorem malformed_event_aborts_classification (l : List HistoryItem)
    (e : HistoryItem) (hmem : e ∈ l)
    (hty : e.historyItemType = "StateUpdate")
    (hsum : e.historySummary = "Alarm updated from OK to ALARM" ∨
      e.historySummary = "Alarm updated from ALARM to OK")
    (hbad : e.newStateStart = none ∨ e.oldStateStart = none) :
    check_alarm_history l = none :=
  check_go_none_of_mem e (stepEvent_malformed e hty hsum hbad) l.reverse
    (⟨0, 0, 0, 0⟩, none) (List.mem_reverse.mpr hmem)

/-- Witness for the amended C1 theorem on the concrete ten-event log. -/
theorem malformed_event_aborts_classification_witness :
    check_alarm_history badTenLog = none :=
  malformed_event_aborts_classification badTenLog eBad (by decide) (by decide)
    (by decide) (by decide)

/-- Claim C1 counterexample: a ten-event log containing one Trigger with a
missing old-state start-date yields nothing, not the counters
`⟨1, 2, 1, 2⟩` that the other nine events produce on their own. -/
theorem malformed_event_not_skipped :
    badTenLog.length = 10 ∧
    badTenLog = goodNineLog.take 5 ++ [eBad] ++ goodNineLog.drop 5 ∧
    check_alarm_history goodNineLog = some ⟨1, 2, 1, 2⟩ ∧
    check_alarm_history badTenLog = none :=
  ⟨by decide, by decide, by decide, by decide⟩

/-- Claim C2: the classifier is not invariant under permutations of the
delivery order.  These two logs are permutations of each other, yet one order
returns counters and the other raises: processed newest-first-reversed, the
swapped feed reaches the short Resolve before any Trigger, and the Resolve
branch's logging line reads `time_between_close_and_trigger` before the
Trigger branch has ever assigned it. -/
theorem classifier_depends_on_delivery_order :
    List.Perm [evR, evT] [evT, evR] ∧
    check_alarm_history [evR, evT] = some ⟨0, 1, 1, 1⟩ ∧
    check_alarm_history [evT, evR] = none :=
  ⟨List.Perm.swap evT evR [], by decide, by decide⟩

/-- A loop step never makes `recurring_in_12_hours_count` overtake
`long_term_issue_count`: a Trigger event's gap of at most 12 hours is also at
most 24 hours, so the two counters rise together or the first alone. -/
theorem stepEvent_recurring_le (st st' : Counters × Option Int)
    (e : HistoryItem) (h : stepEvent st e = some st')
    (hle : st.1.recurring_in_12_hours_count ≤ st.1.long_term_issue_count) :
    st'.1.recurring_in_12_hours_count ≤ st'.1.long_term_issue_count := by
  obtain ⟨c, tb⟩ := st
  obtain ⟨c', tb'⟩ := st'
  by_cases hty : e.historyItemType = "StateUpdate"
  · by_cases hs1 : e.historySummary = "Alarm updated from OK to ALARM"
    · cases hn : e.newStateStart with
      | none => simp [stepEvent, get_alarm_start_time, hty, hs1, hn] at h
      | some t1 =>
        cases ho : e.oldStateStart with
        | none => simp [stepEvent, get_alarm_start_time, hty, hs1, hn, ho] at h
        | some t0 =>
          obtain ⟨k1, k2, k3, k4⟩ := c
          simp only [] at hle
          by_cases h24 : t1 - t0 ≤ td_hours 24
          · by_cases h12 : t1 - t0 ≤ td_hours 12
            · simp [stepEvent, get_alarm_start_time, hty, hs1, hn, ho,
                h24, h12] at h
              obtain ⟨rfl, rfl⟩ := h
              simp at hle ⊢
              omega
            · simp [stepEvent, get_alarm_start_time, hty, hs1, hn, ho,
                h24, h12] at h
              obtain ⟨rfl, rfl⟩ := h
              simp at hle ⊢
              omega
          · have h12 : ¬ (t1 - t0 ≤ td_hours 12) := by
              simp only [td_hours] at h24 ⊢
              omega
            simp [stepEvent, get_alarm_start_time, hty, hs1, hn, ho,
              h24, h12] at h
            obtain ⟨rfl, rfl⟩ := h
            simpa using hle
    · by_cases hs2 : e.historySummary = "Alarm updated from ALARM to OK"
      · cases hn : e.newStateStart with
        | none => simp [stepEvent, get_alarm_start_time, hty, hs1, hs2, hn] at h
        | some t1 =>
          cases ho : e.oldStateStart with
          | none =>
            simp [stepEvent, get_alarm_start_time, hty, hs1, hs2, hn, ho] at h
          | some t0 =>
            cases tb with
            | none =>
              by_cases h48 : t1 - t0 ≥ td_hours 48 <;>
                by_cases h2m : t1 - t0 ≤ td_minutes 2 <;>
                  simp [stepEvent, get_alarm_start_time, hty, hs1, hs2, hn, ho,
                    h48, h2m] at h
              obtain ⟨rfl, rfl⟩ := h
              exact hle
            | some g =>
              by_cases h48 : t1 - t0 ≥ td_hours 48 <;>
                by_cases h2m : t1 - t0 ≤ td_minutes 2 <;>
                  simp [stepEvent, get_alarm_start_time, hty, hs1, hs2, hn, ho,
                    h48, h2m] at h <;>
                  obtain ⟨rfl, rfl⟩ := h <;> simpa using hle
      · simp [stepEvent, hty, hs1, hs2] at h
        obtain ⟨rfl, rfl⟩ := h
        exact hle
  · simp [stepEvent, hty] at h
    obtain ⟨rfl, rfl⟩ := h
    exact hle

/-- Claim C9: whenever the classifier returns counters,
`recurring_in_12_hours_count` is at most `long_term_issue_count`. -/
theorem recurring_le_long_term (l : List HistoryItem) (c : Counters)
    (h : check_alarm_history l = some c) :
    c.recurring_in_12_hours_count ≤ c.long_term_issue_count := by
  suffices hgo : ∀ (xs : List HistoryItem) (st : Counters × Option Int),
      st.1.recurring_in_12_hours_count ≤ st.1.long_term_issue_count →
      ∀ c, check_alarm_history_go xs st = some c →
      c.recurring_in_12_hours_count ≤ c.long_term_issue_count by
    exact hgo l.reverse (⟨0, 0, 0, 0⟩, none) (by simp) c h
  intro xs
  induction xs with
  | nil =>
    intro st hle c h
    simp [check_alarm_history_go] at h
    exact h ▸ hle
  | cons a rest ih =>
    intro st hle c h
    cases hs : stepEvent st a with
    | none => simp [check_alarm_history_go, hs] at h
    | some st' =>
      simp only [check_alarm_history_go, hs] at h
      exact ih st' (stepEvent_recurring_le st st' a hs hle) c h

/-- Witness for C9 on a one-Trigger log whose counters are `⟨0, 1, 1, 0⟩`. -/
theorem recurring_le_long_term_witness :
    (1 : Nat) ≤ 1 ∧
    check_alarm_history
      [⟨"StateUpdate", "Alarm updated from OK to ALARM", some 1000000, some 0⟩] =
      some ⟨0, 1, 1, 0⟩ :=
  ⟨recurring_le_long_term
      [⟨"StateUpdate", "Alarm updated from OK to ALARM", some 1000000, some 0⟩]
      ⟨0, 1, 1, 0⟩ (by decide), by decide⟩

/-- Looking up the key just assigned returns the assigned value. -/
theorem mapGet_mapSet_same (m : AlarmMap) (k : String) (v : AlarmDetail) :
    mapGet (mapSet m k v) k = some v := by
  induction m with
  | nil => simp [mapSet, mapGet]
  | cons p rest ih =>
    obtain ⟨k0, v0⟩ := p
    by_cases h0 : k0 = k
    · subst h0
      simp [mapSet, mapGet]
    · simp [mapSet, mapGet, h0, ih]

/-- Assigning one key leaves every other key's value unchanged. -/
theorem mapGet_mapSet_ne (m : AlarmMap) (k k' : String) (v : AlarmDetail)
    (h : k' ≠ k) : mapGet (mapSet m k v) k' = mapGet m k' := by
  induction m with
  | nil => simp [mapSet, mapGet, Ne.symm h]
  | cons p rest ih =>
    obtain ⟨k0, v0⟩ := p
    by_cases h0 : k0 = k
    · subst h0
      simp [mapSet, mapGet, Ne.symm h]
    · simp [mapSet, mapGet, h0, ih]

/-- A value found after an assignment is either the assigned value at the
assigned key or was already present. -/
theorem mapGet_mapSet_cases (m : AlarmMap) (k : String) (v : AlarmDetail)
    (arn : String) (r : AlarmDetail) (h : mapGet (mapSet m k v) arn = some r) :
    (arn = k ∧ r = v) ∨ mapGet m arn = some r := by
  by_cases hk : arn = k
  · subst hk
    rw [mapGet_mapSet_same] at h
    exact Or.inl ⟨rfl, (Option.some.injEq _ _ ▸ h).symm⟩
  · rw [mapGet_mapSet_ne m k arn v hk] at h
    exact Or.inr h

/-- Setting the same bucket flag twice is the same as setting it once. -/
theorem set_flag_field_idem (ct : String) (r : AlarmDetail) :
    set_flag_field ct (set_flag_field ct r) = set_flag_field ct r := by
  unfold set_flag_field
  split_ifs <;> rfl

/-- Setting a bucket flag never changes the non-flag fields of a record. -/
theorem set_flag_field_attrs (ct : String) (r : AlarmDetail) :
    (set_flag_field ct r).alarmName = r.alarmName ∧
    (set_flag_field ct r).alarmDescription = r.alarmDescription ∧
    (set_flag_field ct r).actionsEnabled = r.actionsEnabled ∧
    (set_flag_field ct r).okActions = r.okActions ∧
    (set_flag_field ct r).alarmActions = r.alarmActions ∧
    (set_flag_field ct r).insufficientDataActions = r.insufficientDataActions ∧
    (set_flag_field ct r).descriptionAssessment = r.descriptionAssessment ∧
    (set_flag_field ct r).suggestedDescription = r.suggestedDescription := by
  unfold set_flag_field
  split_ifs <;> simp

/-- Effect of `set_flag_field` on the `no_description` flag. -/
theorem set_flag_field_no_description (ct : String) (r : AlarmDetail) :
    (set_flag_field ct r).no_description =
      if ct = "no_description" then some true else r.no_description := by
  unfold set_flag_field
  split_ifs <;> simp_all

/-- Effect of `set_flag_field` on the `high_threshold` flag. -/
theorem set_flag_field_high_threshold (ct : String) (r : AlarmDetail) :
    (set_flag_field ct r).high_threshold =
      if ct = "high_threshold" then some true else r.high_threshold := by
  unfold set_flag_field
  split_ifs <;> simp_all

/-- Effect of `set_flag_field` on the `high_data_points` flag. -/
theorem set_flag_field_high_data_points (ct : String) (r : AlarmDetail) :
    (set_flag_field ct r).high_data_points =
      if ct = "high_data_points" then some true else r.high_data_points := by
  unfold set_flag_field
  split_ifs <;> simp_all

/-- Effect of `set_flag_field` on the `no_actions` flag. -/
theorem set_flag_field_no_actions (ct : String) (r : AlarmDetail) :
    (set_flag_field ct r).no_actions =
      if ct = "no_actions" then some true else r.no_actions := by
  unfold set_flag_field
  split_ifs <;> simp_all

/-- A bucket pass leaves every ARN that the bucket does not mention alone. -/
theorem apply_flag_bucket_untouched (ct : String) (lst : List Alarm)
    (m m' : AlarmMap) (h : apply_flag_bucket ct lst m = some m')
    (arn : String) (harn : ∀ a ∈ lst, a.alarmArn ≠ arn) :
    mapGet m' arn = mapGet m arn := by
  induction lst generalizing m with
  | nil =>
    simp [apply_flag_bucket] at h
    subst h
    rfl
  | cons a rest ih =>
    cases hg : mapGet m a.alarmArn with
    | none => simp [apply_flag_bucket, hg] at h
    | some r =>
      simp only [apply_flag_bucket, hg] at h
      have hrest := ih (mapSet m a.alarmArn (set_flag_field ct r)) h
        (fun x hx => harn x (List.mem_cons_of_mem a hx))
      rw [hrest, mapGet_mapSet_ne]
      exact Ne.symm (harn a (List.mem_cons_self a rest))

/-- After a bucket pass, each record is either untouched or is a previous
record of the same ARN, an ARN the bucket mentions, with its flag set. -/
theorem apply_flag_bucket_pointwise (ct : String) (lst : List Alarm)
    (m m' : AlarmMap) (h : apply_flag_bucket ct lst m = some m') (arn : String) :
    mapGet m' arn = mapGet m arn ∨
    ((∃ a ∈ lst, a.alarmArn = arn) ∧
      ∃ r, mapGet m arn = some r ∧
        mapGet m' arn = some (set_flag_field ct r)) := by
  induction lst generalizing m with
  | nil =>
    simp [apply_flag_bucket] at h
    subst h
    exact Or.inl rfl
  | cons a rest ih =>
    cases hg : mapGet m a.alarmArn with
    | none => simp [apply_flag_bucket, hg] at h
    | some r =>
      simp only [apply_flag_bucket, hg] at h
      rcases ih (mapSet m a.alarmArn (set_flag_field ct r)) h with
        heq | ⟨hmem, r', hr', hr2⟩
      · by_cases ha : a.alarmArn = arn
        · subst ha
          rw [mapGet_mapSet_same] at heq
          exact Or.inr ⟨⟨a, List.mem_cons_self a rest, rfl⟩, r, hg, heq⟩
        · rw [mapGet_mapSet_ne m a.alarmArn arn _ (fun hx => ha hx.symm)] at heq
          exact Or.inl heq
      · by_cases ha : a.alarmArn = arn
        · subst ha
          rw [mapGet_mapSet_same] at hr'
          have hreq : r' = set_flag_field ct r :=
            (Option.some.injEq _ _ ▸ hr').symm
          subst hreq
          rw [set_flag_field_idem] at hr2
          exact Or.inr ⟨⟨a, List.mem_cons_self a rest, rfl⟩, r, hg, hr2⟩
        · obtain ⟨a', ha', harn'⟩ := hmem
          rw [mapGet_mapSet_ne m a.alarmArn arn _ (fun hx => ha hx.symm)] at hr'
          exact Or.inr ⟨⟨a', List.mem_cons_of_mem a ha', harn'⟩, r', hr', hr2⟩

/-- A bucket pass never drops a record. -/
theorem apply_flag_bucket_some (ct : String) (lst : List Alarm)
    (m m' : AlarmMap) (h : apply_flag_bucket ct lst m = some m')
    (arn : String) (r : AlarmDetail) (hr : mapGet m arn = some r) :
    ∃ r1, mapGet m' arn = some r1 := by
  rcases apply_flag_bucket_pointwise ct lst m m' h arn with heq | ⟨_, r0, _, hr2⟩
  · exact ⟨r, heq.trans hr⟩
  · exact ⟨set_flag_field ct r0, hr2⟩

/-- A bucket pass preserves all non-flag fields of every record. -/
theorem apply_flag_bucket_attrs (ct : String) (lst : List Alarm)
    (m m' : AlarmMap) (h : apply_flag_bucket ct lst m = some m')
    (arn : String) (r r' : AlarmDetail)
    (hr : mapGet m arn = some r) (hr' : mapGet m' arn = some r') :
    r'.alarmName = r.alarmName ∧
    r'.alarmDescription = r.alarmDescription ∧
    r'.actionsEnabled = r.actionsEnabled ∧
    r'.okActions = r.okActions ∧
    r'.alarmActions = r.alarmActions ∧
    r'.insufficientDataActions = r.insufficientDataActions ∧
    r'.descriptionAssessment = r.descriptionAssessment ∧
    r'.suggestedDescription = r.suggestedDescription := by
  rcases apply_flag_bucket_pointwise ct lst m m' h arn with heq | ⟨_, r0, hr0, hr2⟩
  · rw [heq, hr] at hr'
    obtain rfl : r = r' := Option.some.injEq _ _ ▸ hr'
    simp
  · rw [hr] at hr0
    injection hr0 with h1
    rw [hr2] at hr'
    injection hr' with h2
    rw [← h2, ← h1]
    exact set_flag_field_attrs ct r

/-- The whole flag merge leaves every ARN no bucket mentions alone. -/
theorem create_alarm_with_flags_untouched (b : Buckets) (m m' : AlarmMap)
    (h : create_alarm_with_flags b m = some m') (arn : String)
    (harn : ∀ a ∈ b.no_description ++ b.high_threshold ++
      b.high_data_points ++ b.no_actions, a.alarmArn ≠ arn) :
    mapGet m' arn = mapGet m arn := by
  rw [create_alarm_with_flags] at h
  cases h1 : apply_flag_bucket "no_description" b.no_description m with
  | none => simp [h1] at h
  | some m1 =>
    simp only [h1] at h
    cases h2 : apply_flag_bucket "high_threshold" b.high_threshold m1 with
    | none => simp [h2] at h
    | some m2 =>
      simp only [h2] at h
      cases h3 : apply_flag_bucket "high_data_points" b.high_data_points m2 with
      | none => simp [h3] at h
      | some m3 =>
        simp only [h3] at h
        have u1 := apply_flag_bucket_untouched _ _ _ _ h1 arn
          (fun a ha => harn a (by simp [ha]))
        have u2 := apply_flag_bucket_untouched _ _ _ _ h2 arn
          (fun a ha => harn a (by simp [ha]))
        have u3 := apply_flag_bucket_untouched _ _ _ _ h3 arn
          (fun a ha => harn a (by simp [ha]))
        have u4 := apply_flag_bucket_untouched _ _ _ _ h arn
          (fun a ha => harn a (by simp [ha]))
        exact u4.trans (u3.trans (u2.trans u1))

/-- The whole flag merge preserves all non-flag fields of every record. -/
theorem create_alarm_with_flags_attrs (b : Buckets) (m m' : AlarmMap)
    (h : create_alarm_with_flags b m = some m') (arn : String)
    (r r' : AlarmDetail) (hr : mapGet m arn = some r)
    (hr' : mapGet m' arn = some r') :
    r'.alarmName = r.alarmName ∧
    r'.alarmDescription = r.alarmDescription ∧
    r'.actionsEnabled = r.actionsEnabled ∧
    r'.okActions = r.okActions ∧
    r'.alarmActions = r.alarmActions ∧
    r'.insufficientDataActions = r.insufficientDataActions ∧
    r'.descriptionAssessment = r.descriptionAssessment ∧
    r'.suggestedDescription = r.suggestedDescription := by
  rw [create_alarm_with_flags] at h
  cases h1 : apply_flag_bucket "no_description" b.no_description m with
  | none => simp [h1] at h
  | some m1 =>
    simp only [h1] at h
    cases h2 : apply_flag_bucket "high_threshold" b.high_threshold m1 with
    | none => simp [h2] at h
    | some m2 =>
      simp only [h2] at h
      cases h3 : apply_flag_bucket "high_data_points" b.high_data_points m2 with
      | none => simp [h3] at h
      | some m3 =>
        simp only [h3] at h
        obtain ⟨r1, hr1⟩ := apply_flag_bucket_some _ _ _ _ h1 arn r hr
        obtain ⟨r2, hr2⟩ := apply_flag_bucket_some _ _ _ _ h2 arn r1 hr1
        obtain ⟨r3, hr3⟩ := apply_flag_bucket_some _ _ _ _ h3 arn r2 hr2
        obtain ⟨p1, p2, p3, p4, p5, p6, p7, p8⟩ :=
          apply_flag_bucket_attrs _ _ _ _ h1 arn r r1 hr hr1
        obtain ⟨q1, q2, q3, q4, q5, q6, q7, q8⟩ :=
          apply_flag_bucket_attrs _ _ _ _ h2 arn r1 r2 hr1 hr2
        obtain ⟨s1, s2, s3, s4, s5, s6, s7, s8⟩ :=
          apply_flag_bucket_attrs _ _ _ _ h3 arn r2 r3 hr2 hr3
        obtain ⟨w1, w2, w3, w4, w5, w6, w7, w8⟩ :=
          apply_flag_bucket_attrs _ _ _ _ h arn r3 r' hr3 hr'
        exact ⟨w1.trans (s1.trans (q1.trans p1)),
          w2.trans (s2.trans (q2.trans p2)),
          w3.trans (s3.trans (q3.trans p3)),
          w4.trans (s4.trans (q4.trans p4)),
          w5.trans (s5.trans (q5.trans p5)),
          w6.trans (s6.trans (q6.trans p6)),
          w7.trans (s7.trans (q7.trans p7)),
          w8.trans (s8.trans (q8.trans p8))⟩

/-- Claim C8: each merge writes only the fields of its incoming update.  The
advisory merge changes no record other than the targeted ARN and, on that
record, preserves every seeded attribute and all four issue flags; the flag
merge changes no record outside its buckets and, on every record, preserves
all seeded attributes and both advisory fields. -/
theorem merge_updates_only_incoming_fields
    (m ma mf : AlarmMap) (arn : String)
    (assessment suggested : Option String) (b : Buckets)
    (hadv : set_description_advisory m arn assessment suggested = some ma)
    (hflg : create_alarm_with_flags b m = some mf) :
    (∀ arn', arn' ≠ arn → mapGet ma arn' = mapGet m arn') ∧
    (∀ r r', mapGet m arn = some r → mapGet ma arn = some r' →
      r'.alarmName = r.alarmName ∧ r'.alarmDescription = r.alarmDescription ∧
      r'.actionsEnabled = r.actionsEnabled ∧ r'.okActions = r.okActions ∧
      r'.alarmActions = r.alarmActions ∧
      r'.insufficientDataActions = r.insufficientDataActions ∧
      r'.no_description = r.no_description ∧
      r'.high_threshold = r.high_threshold ∧
      r'.high_data_points = r.high_data_points ∧
      r'.no_actions = r.no_actions) ∧
    (∀ arn', (∀ a ∈ b.no_description ++ b.high_threshold ++
        b.high_data_points ++ b.no_actions, a.alarmArn ≠ arn') →
      mapGet mf arn' = mapGet m arn') ∧
    (∀ arn' r r', mapGet m arn' = some r → mapGet mf arn' = some r' →
      r'.alarmName = r.alarmName ∧ r'.alarmDescription = r.alarmDescription ∧
      r'.actionsEnabled = r.actionsEnabled ∧ r'.okActions = r.okActions ∧
      r'.alarmActions = r.alarmActions ∧
      r'.insufficientDataActions = r.insufficientDataActions ∧
      r'.descriptionAssessment = r.descriptionAssessment ∧
      r'.suggestedDescription = r.suggestedDescription) := by
  cases hg : mapGet m arn with
  | none => simp [set_description_advisory, hg] at hadv
  | some r0 =>
    simp only [set_description_advisory, hg, Option.some.injEq] at hadv
    subst hadv
    refine ⟨?_, ?_, ?_, ?_⟩
    · intro arn' hne
      exact mapGet_mapSet_ne m arn arn' _ hne
    · intro r r' hr hr'
      have h1 : r = r0 := (Option.some.inj hr).symm
      have h2 := Option.some.inj (hr'.symm.trans (mapGet_mapSet_same m arn _))
      subst h1
      subst h2
      simp
    · intro arn' harn
      exact create_alarm_with_flags_untouched b m mf hflg arn' harn
    · intro arn' r r' hr hr'
      exact create_alarm_with_flags_attrs b m mf hflg arn' r r' hr hr'

/-- Witness for C8 on the concrete two-record map: the advisory merge on
record `a` leaves record `b` and the flags of `a` alone, and the flag merge
for a `high_threshold` bucket naming only `b` leaves record `a` and the
advisory fields of `b` alone. -/
theorem merge_updates_only_incoming_fields_witness :
    mapGet exMa "b" = mapGet exM "b" ∧
    exDetailA'.no_description = exDetailA.no_description ∧
    mapGet exMf "a" = mapGet exM "a" ∧
    exDetailB'.descriptionAssessment = exDetailB.descriptionAssessment := by
  have h := merge_updates_only_incoming_fields exM exMa exMf "a"
    (some "assess") (some "sugg") exB8 (by decide) (by decide)
  exact ⟨h.1 "b" (by decide),
    (h.2.1 exDetailA exDetailA' (by decide) (by decide)).2.2.2.2.2.2.1,
    h.2.2.1 "a" (by decide),
    (h.2.2.2 "b" exDetailB exDetailB' (by decide) (by decide)).2.2.2.2.2.2.1⟩

/-- Records seeded by `create_alarm_map` carry no flag keys. -/
theorem create_alarm_map_flags_none (l : List Alarm) (arn : String)
    (r : AlarmDetail) (h : mapGet (create_alarm_map l) arn = some r) :
    r.no_description = none ∧ r.high_threshold = none ∧
    r.high_data_points = none ∧ r.no_actions = none := by
  suffices hgo : ∀ (xs : List Alarm) (m : AlarmMap),
      (∀ arn r, mapGet m arn = some r → r.no_description = none ∧
        r.high_threshold = none ∧ r.high_data_points = none ∧
        r.no_actions = none) →
      ∀ arn r, mapGet (xs.foldl
        (fun m alarm => mapSet m alarm.alarmArn (seed_alarm alarm)) m) arn =
        some r →
      r.no_description = none ∧ r.high_threshold = none ∧
      r.high_data_points = none ∧ r.no_actions = none by
    refine hgo l [] ?_ arn r h
    intro arn r h
    simp [mapGet] at h
  intro xs
  induction xs with
  | nil => exact fun m hm => hm
  | cons a rest ih =>
    intro m hm
    rw [List.foldl_cons]
    refine ih _ ?_
    intro arn' r' h'
    rcases mapGet_mapSet_cases m a.alarmArn (seed_alarm a) arn' r' h' with
      ⟨_, rfl⟩ | h''
    · simp [seed_alarm]
    · exact hm arn' r' h''

/-- Through a bucket pass that sets the flag a view `g` reads, a record's
view either became true for a member ARN or is inherited unchanged. -/
theorem apply_flag_bucket_view_set (g : AlarmDetail → Option Bool)
    (ct : String) (hset : ∀ r, g (set_flag_field ct r) = some true)
    (lst : List Alarm) (m m' : AlarmMap)
    (h : apply_flag_bucket ct lst m = some m')
    (arn : String) (r' : AlarmDetail) (hr' : mapGet m' arn = some r') :
    (g r' = some true ∧ ∃ a ∈ lst, a.alarmArn = arn) ∨
    ∃ r, mapGet m arn = some r ∧ g r' = g r := by
  rcases apply_flag_bucket_pointwise ct lst m m' h arn with
    heq | ⟨hmem, r, hr, hr2⟩
  · exact Or.inr ⟨r', heq.symm.trans hr', rfl⟩
  · rw [hr2] at hr'
    injection hr' with hr'
    exact Or.inl ⟨hr' ▸ hset r, hmem⟩

/-- Through a bucket pass that does not touch the field a view `g` reads,
every record's view is inherited unchanged. -/
theorem apply_flag_bucket_view_preserve (g : AlarmDetail → Option Bool)
    (ct : String) (hpres : ∀ r, g (set_flag_field ct r) = g r)
    (lst : List Alarm) (m m' : AlarmMap)
    (h : apply_flag_bucket ct lst m = some m')
    (arn : String) (r' : AlarmDetail) (hr' : mapGet m' arn = some r') :
    ∃ r, mapGet m arn = some r ∧ g r' = g r := by
  rcases apply_flag_bucket_pointwise ct lst m m' h arn with
    heq | ⟨_, r, hr, hr2⟩
  · exact ⟨r', heq.symm.trans hr', rfl⟩
  · rw [hr2] at hr'
    injection hr' with hr'
    exact ⟨r, hr, hr' ▸ hpres r⟩

/-- The flag merge is the sequence of its four bucket passes. -/
theorem create_alarm_with_flags_stages (b : Buckets) (m m' : AlarmMap)
    (h : create_alarm_with_flags b m = some m') :
    ∃ m1 m2 m3,
      apply_flag_bucket "no_description" b.no_description m = some m1 ∧
      apply_flag_bucket "high_threshold" b.high_threshold m1 = some m2 ∧
      apply_flag_bucket "high_data_points" b.high_data_points m2 = some m3 ∧
      apply_flag_bucket "no_actions" b.no_actions m3 = some m' := by
  rw [create_alarm_with_flags] at h
  cases h1 : apply_flag_bucket "no_description" b.no_description m with
  | none => simp [h1] at h
  | some m1 =>
    simp only [h1] at h
    cases h2 : apply_flag_bucket "high_threshold" b.high_threshold m1 with
    | none => simp [h2] at h
    | some m2 =>
      simp only [h2] at h
      cases h3 : apply_flag_bucket "high_data_points" b.high_data_points m2 with
      | none => simp [h3] at h
      | some m3 =>
        simp only [h3] at h
        exact ⟨m1, m2, m3, rfl, h2, h3, h⟩

/-- An option that is none or a true flag with provenance satisfies the three
bucket-flag properties. -/
theorem flag_triple (v : Option Bool) (P : Prop)
    (h : v = none ∨ (v = some true ∧ P)) :
    v ≠ some false ∧ (v = some true → P) ∧ (¬ P → v = none) := by
  rcases h with rfl | ⟨rfl, hp⟩
  · exact ⟨by simp, by simp, fun _ => rfl⟩
  · exact ⟨by simp, fun _ => hp, fun hnp => absurd hp hnp⟩

/-- After the flag merge, a record's `no_description` flag is true for a
`no_description`-bucket member or inherited from the input map. -/
theorem create_alarm_with_flags_no_description_view (b : Buckets)
    (m m' : AlarmMap) (h : create_alarm_with_flags b m = some m')
    (arn : String) (r' : AlarmDetail) (hr' : mapGet m' arn = some r') :
    (r'.no_description = some true ∧
      ∃ a ∈ b.no_description, a.alarmArn = arn) ∨
    ∃ r, mapGet m arn = some r ∧ r'.no_description = r.no_description := by
  obtain ⟨m1, m2, m3, h1, h2, h3, h4⟩ := create_alarm_with_flags_stages b m m' h
  obtain ⟨r3, hr3, e3⟩ := apply_flag_bucket_view_preserve
    (fun r => r.no_description) "no_actions"
    (fun r => by simp [set_flag_field_no_description]) _ _ _ h4 arn r' hr'
  obtain ⟨r2, hr2, e2⟩ := apply_flag_bucket_view_preserve
    (fun r => r.no_description) "high_data_points"
    (fun r => by simp [set_flag_field_no_description]) _ _ _ h3 arn r3 hr3
  obtain ⟨r1, hr1, e1⟩ := apply_flag_bucket_view_preserve
    (fun r => r.no_description) "high_threshold"
    (fun r => by simp [set_flag_field_no_description]) _ _ _ h2 arn r2 hr2
  have echain : r'.no_description = r1.no_description := e3.trans (e2.trans e1)
  rcases apply_flag_bucket_view_set (fun r => r.no_description)
    "no_description" (fun r => by simp [set_flag_field_no_description])
    _ _ _ h1 arn r1 hr1 with ⟨hval, hmem⟩ | ⟨r0, hr0, e0⟩
  · exact Or.inl ⟨echain.trans hval, hmem⟩
  · exact Or.inr ⟨r0, hr0, echain.trans e0⟩

/-- After the flag merge, a record's `high_threshold` flag is true for a
`high_threshold`-bucket member or inherited from the input map. -/
theorem create_alarm_with_flags_high_threshold_view (b : Buckets)
    (m m' : AlarmMap) (h : create_alarm_with_flags b m = some m')
    (arn : String) (r' : AlarmDetail) (hr' : mapGet m' arn = some r') :
    (r'.high_threshold = some true ∧
      ∃ a ∈ b.high_threshold, a.alarmArn = arn) ∨
    ∃ r, mapGet m arn = some r ∧ r'.high_threshold = r.high_threshold := by
  obtain ⟨m1, m2, m3, h1, h2, h3, h4⟩ := create_alarm_with_flags_stages b m m' h
  obtain ⟨r3, hr3, e3⟩ := apply_flag_bucket_view_preserve
    (fun r => r.high_threshold) "no_actions"
    (fun r => by simp [set_flag_field_high_threshold]) _ _ _ h4 arn r' hr'
  obtain ⟨r2, hr2, e2⟩ := apply_flag_bucket_view_preserve
    (fun r => r.high_threshold) "high_data_points"
    (fun r => by simp [set_flag_field_high_threshold]) _ _ _ h3 arn r3 hr3
  have echain : r'.high_threshold = r2.high_threshold := e3.trans e2
  rcases apply_flag_bucket_view_set (fun r => r.high_threshold)
    "high_threshold" (fun r => by simp [set_flag_field_high_threshold])
    _ _ _ h2 arn r2 hr2 with ⟨hval, hmem⟩ | ⟨r1, hr1, e1⟩
  · exact Or.inl ⟨echain.trans hval, hmem⟩
  · obtain ⟨r0, hr0, e0⟩ := apply_flag_bucket_view_preserve
      (fun r => r.high_threshold) "no_description"
      (fun r => by simp [set_flag_field_high_threshold]) _ _ _ h1 arn r1 hr1
    exact Or.inr ⟨r0, hr0, echain.trans (e1.trans e0)⟩

/-- After the flag merge, a record's `high_data_points` flag is true for a
`high_data_points`-bucket member or inherited from the input map. -/
theorem create_alarm_with_flags_high_data_points_view (b : Buckets)
    (m m' : AlarmMap) (h : create_alarm_with_flags b m = some m')
    (arn : String) (r' : AlarmDetail) (hr' : mapGet m' arn = some r') :
    (r'.high_data_points = some true ∧
      ∃ a ∈ b.high_data_points, a.alarmArn = arn) ∨
    ∃ r, mapGet m arn = some r ∧ r'.high_data_points = r.high_data_points := by
  obtain ⟨m1, m2, m3, h1, h2, h3, h4⟩ := create_alarm_with_flags_stages b m m' h
  obtain ⟨r3, hr3, e3⟩ := apply_flag_bucket_view_preserve
    (fun r => r.high_data_points) "no_actions"
    (fun r => by simp [set_flag_field_high_data_points]) _ _ _ h4 arn r' hr'
  rcases apply_flag_bucket_view_set (fun r => r.high_data_points)
    "high_data_points" (fun r => by simp [set_flag_field_high_data_points])
    _ _ _ h3 arn r3 hr3 with ⟨hval, hmem⟩ | ⟨r2, hr2, e2⟩
  · exact Or.inl ⟨e3.trans hval, hmem⟩
  · obtain ⟨r1, hr1, e1⟩ := apply_flag_bucket_view_preserve
      (fun r => r.high_data_points) "high_threshold"
      (fun r => by simp [set_flag_field_high_data_points]) _ _ _ h2 arn r2 hr2
    obtain ⟨r0, hr0, e0⟩ := apply_flag_bucket_view_preserve
      (fun r => r.high_data_points) "no_description"
      (fun r => by simp [set_flag_field_high_data_points]) _ _ _ h1 arn r1 hr1
    exact Or.inr ⟨r0, hr0, e3.trans (e2.trans (e1.trans e0))⟩

/-- After the flag merge, a record's `no_actions` flag is true for a
`no_actions`-bucket member or inherited from the input map. -/
theorem create_alarm_with_flags_no_actions_view (b : Buckets)
    (m m' : AlarmMap) (h : create_alarm_with_flags b m = some m')
    (arn : String) (r' : AlarmDetail) (hr' : mapGet m' arn = some r') :
    (r'.no_actions = some true ∧ ∃ a ∈ b.no_actions, a.alarmArn = arn) ∨
    ∃ r, mapGet m arn = some r ∧ r'.no_actions = r.no_actions := by
  obtain ⟨m1, m2, m3, h1, h2, h3, h4⟩ := create_alarm_with_flags_stages b m m' h
  rcases apply_flag_bucket_view_set (fun r => r.no_actions)
    "no_actions" (fun r => by simp [set_flag_field_no_actions])
    _ _ _ h4 arn r' hr' with ⟨hval, hmem⟩ | ⟨r3, hr3, e3⟩
  · exact Or.inl ⟨hval, hmem⟩
  · obtain ⟨r2, hr2, e2⟩ := apply_flag_bucket_view_preserve
      (fun r => r.no_actions) "high_data_points"
      (fun r => by simp [set_flag_field_no_actions]) _ _ _ h3 arn r3 hr3
    obtain ⟨r1, hr1, e1⟩ := apply_flag_bucket_view_preserve
      (fun r => r.no_actions) "high_threshold"
      (fun r => by simp [set_flag_field_no_actions]) _ _ _ h2 arn r2 hr2
    obtain ⟨r0, hr0, e0⟩ := apply_flag_bucket_view_preserve
      (fun r => r.no_actions) "no_description"
      (fun r => by simp [set_flag_field_no_actions]) _ _ _ h1 arn r1 hr1
    exact Or.inr ⟨r0, hr0, e3.trans (e2.trans (e1.trans e0))⟩

/-- Claim C10: in the merged map built from a list of alarms, a bucket flag is
only ever set to true, and only on a record whose ARN belongs to an alarm of
that bucket; an alarm that passes a check keeps no flag key for that check at
all (the field stays absent, never false). -/
theorem flags_only_true_and_only_on_bucket_members (l : List Alarm)
    (b : Buckets) (mf : AlarmMap)
    (hb : basic_alarm_checks l = some b)
    (hf : create_alarm_with_flags b (create_alarm_map l) = some mf)
    (arn : String) (r : AlarmDetail) (hr : mapGet mf arn = some r) :
    (r.no_description ≠ some false ∧
      (r.no_description = some true →
        ∃ a ∈ b.no_description, a.alarmArn = arn) ∧
      ((∀ a ∈ b.no_description, a.alarmArn ≠ arn) →
        r.no_description = none)) ∧
    (r.high_threshold ≠ some false ∧
      (r.high_threshold = some true →
        ∃ a ∈ b.high_threshold, a.alarmArn = arn) ∧
      ((∀ a ∈ b.high_threshold, a.alarmArn ≠ arn) →
        r.high_threshold = none)) ∧
    (r.high_data_points ≠ some false ∧
      (r.high_data_points = some true →
        ∃ a ∈ b.high_data_points, a.alarmArn = arn) ∧
      ((∀ a ∈ b.high_data_points, a.alarmArn ≠ arn) →
        r.high_data_points = none)) ∧
    (r.no_actions ≠ some false ∧
      (r.no_actions = some true → ∃ a ∈ b.no_actions, a.alarmArn = arn) ∧
      ((∀ a ∈ b.no_actions, a.alarmArn ≠ arn) → r.no_actions = none)) := by
  refine ⟨?_, ?_, ?_, ?_⟩
  · have ht := flag_triple r.no_description
      (∃ a ∈ b.no_description, a.alarmArn = arn) ?_
    · exact ⟨ht.1, ht.2.1, fun hall => ht.2.2 (fun ⟨a, ha, he⟩ => hall a ha he)⟩
    · rcases create_alarm_with_flags_no_description_view b _ mf hf arn r hr with
        ⟨hval, hmem⟩ | ⟨r0, hr0, e0⟩
      · exact Or.inr ⟨hval, hmem⟩
      · exact Or.inl (e0.trans (create_alarm_map_flags_none l arn r0 hr0).1)
  · have ht := flag_triple r.high_threshold
      (∃ a ∈ b.high_threshold, a.alarmArn = arn) ?_
    · exact ⟨ht.1, ht.2.1, fun hall => ht.2.2 (fun ⟨a, ha, he⟩ => hall a ha he)⟩
    · rcases create_alarm_with_flags_high_threshold_view b _ mf hf arn r hr with
        ⟨hval, hmem⟩ | ⟨r0, hr0, e0⟩
      · exact Or.inr ⟨hval, hmem⟩
      · exact Or.inl (e0.trans (create_alarm_map_flags_none l arn r0 hr0).2.1)
  · have ht := flag_triple r.high_data_points
      (∃ a ∈ b.high_data_points, a.alarmArn = arn) ?_
    · exact ⟨ht.1, ht.2.1, fun hall => ht.2.2 (fun ⟨a, ha, he⟩ => hall a ha he)⟩
    · rcases create_alarm_with_flags_high_data_points_view b _ mf hf arn r hr with
        ⟨hval, hmem⟩ | ⟨r0, hr0, e0⟩
      · exact Or.inr ⟨hval, hmem⟩
      · exact Or.inl (e0.trans (create_alarm_map_flags_none l arn r0 hr0).2.2.1)
  · have ht := flag_triple r.no_actions
      (∃ a ∈ b.no_actions, a.alarmArn = arn) ?_
    · exact ⟨ht.1, ht.2.1, fun hall => ht.2.2 (fun ⟨a, ha, he⟩ => hall a ha he)⟩
    · rcases create_alarm_with_flags_no_actions_view b _ mf hf arn r hr with
        ⟨hval, hmem⟩ | ⟨r0, hr0, e0⟩
      · exact Or.inr ⟨hval, hmem⟩
      · exact Or.inl (e0.trans (create_alarm_map_flags_none l arn r0 hr0).2.2.2)

/-- Witness for C10 on the one-alarm pipeline that fails every check. -/
theorem flags_only_true_and_only_on_bucket_members_witness :
    exR.no_description ≠ some false ∧
    (∃ a ∈ exB.no_description, a.alarmArn = "arn:a") := by
  have h := flags_only_true_and_only_on_bucket_members [exAlarm] exB
    [("arn:a", exR)] (by decide) (by decide) "arn:a" exR (by decide)
  exact ⟨h.1.1, h.1.2.1 (by decide)⟩
